import Mathlib

/-!
Verification of the add-user-to-group component
(src/app/src/components/add_user_to_group.rs).

The component is shallowly embedded: its state, messages, message handler
(`handle_msg`), submit helper (`submit_add_group`), derived selectable list
(`get_selectable_group_list`) and render function (`view`) are translated
from the Rust source.  Infrastructure that the source delegates to but that
lives outside the translated file (CommonComponentParts, the Group type's
equality) is modelled from the specification and marked as such in the
doc comment of each affected definition.
-/

namespace LldapApp

/-- A group, as constructed by the component: an integer id and a display
name (see the `From<GroupListGroup> for Group` impl, lines 34-41 of the
source; the `Group` struct itself is declared in `user_details.rs`). -/
structure Group where
  id : Int
  display_name : String
deriving DecidableEq, Repr

/-- A raw group record of the list-groups response
(`get_group_list::GetGroupListGroups`). -/
structure GroupListGroup where
  id : Int
  display_name : String
deriving DecidableEq, Repr

/-- The `From<GroupListGroup> for Group` impl (source lines 34-41): maps a
raw record 1:1 into the `Group` shape. -/
def groupOfRecord (g : GroupListGroup) : Group :=
  { id := g.id, display_name := g.display_name }

/-- Errors are carried as human-readable descriptions (anyhow::Error is
surfaced to the owner as a failure description, spec section 6). -/
abbrev Err := String

/-- The payload of a selection-changed event (`SelectOptionProps`): the
chosen option's value string and display text. -/
structure SelectOptionProps where
  value : String
  text : String
deriving DecidableEq, Repr

/-- The component's messages (enum `Msg`, source lines 51-56).  The two
response payloads are modelled by what the handler consumes: the list of
raw group records for the list query, and a unit acknowledgement for the
add mutation. -/
inductive Msg where
  | GroupListResponse (response : Except Err (List GroupListGroup))
  | SubmitAddGroup
  | AddGroupResponse (response : Except Err Unit)
  | SelectionChanged (option_props : Option SelectOptionProps)

/-- The two outbound backend operations (spec section 6). -/
inductive Request where
  | getGroupList
  | addUserToGroup (user : String) (group : Int)
deriving DecidableEq, Repr

/-- Observable outputs of one message-handling step: outbound requests
issued through the transport, emissions of the owner's
`on_user_added_to_group` callback, and emissions of the owner's
`on_error` callback. -/
structure Effects where
  requests : List Request
  added : List Group
  errors : List Err
deriving DecidableEq, Repr

/-- No observable output. -/
def noEffects : Effects := { requests := [], added := [], errors := [] }

/-- The component state: `AddUserToGroupComponent` (source lines 43-49)
together with the parts of `CommonComponentParts` the source reads
(the props `username` and `groups`, and the running-task flag behind
`is_task_running`, i.e. the InFlightFlag). -/
structure State where
  username : String
  groups : List Group
  group_list : Option (List Group)
  selected_group : Option Group
  task : Bool
deriving DecidableEq, Repr

/-- Result of `handle_msg`: a panic (`unwrap`/`expect` failure), an error
returned to the caller (`?` on a response), or a normal `Ok(redraw)`
together with the mutated state and the observable outputs. -/
inductive HRes where
  | panic
  | err (e : Err) (s : State) (eff : Effects)
  | ok (redraw : Bool) (s : State) (eff : Effects)
deriving DecidableEq, Repr

/-- Modelled from the spec: `CommonComponentParts::call_graphql`
(infra/common_component.rs, not under src/).  The transport performs a
named backend operation (spec sections 1 and 6); the call records the
outbound request and sets the InFlightFlag, which is "true exactly while
a fetch or submission's response has not yet arrived" (spec section 3). -/
def call_graphql (s : State) (r : Request) : State × Effects :=
  ({ s with task := true }, { noEffects with requests := [r] })

/-- Modelled from the spec: `CommonComponentParts::cancel_task`
(infra/common_component.rs, not under src/): clears the InFlightFlag
(spec sections 4.1 and 4.2: "InFlightFlag cleared"). -/
def cancel_task (s : State) : State :=
  { s with task := false }

/-- Modelled from the spec: `CommonComponentParts::is_task_running`
(infra/common_component.rs, not under src/): the InFlightFlag. -/
def is_task_running (s : State) : Bool :=
  s.task

/-- The value of a decimal digit character, `none` for anything else. -/
def digitVal (c : Char) : Option Nat :=
  if 48 ≤ c.toNat ∧ c.toNat ≤ 57 then some (c.toNat - 48) else none

/-- Accumulate a decimal number over a list of characters; any non-digit
makes the whole parse fail. -/
def parseNatDigits : List Char → Nat → Option Nat
  | [], acc => some acc
  | c :: cs, acc =>
      match digitVal c with
      | none => none
      | some d => parseNatDigits cs (acc * 10 + d)

/-- Bound the magnitude to the i64 range, mirroring the overflow failure
of Rust's checked accumulation: a non-negative result must not exceed
2^63 - 1, a negated one must not exceed 2^63 in magnitude.  Because the
accumulated magnitude only grows as digits are consumed, an overflow at
some step of Rust's loop happens exactly when the final value is out of
range, so checking the final value is equivalent. -/
def fitI64 (neg : Bool) (n : Nat) : Option Int :=
  if neg then
    if n ≤ 9223372036854775808 then some (-(n : Int)) else none
  else
    if n ≤ 9223372036854775807 then some (n : Int) else none

/-- Rust's `str::parse::<i64>` as used on the option payload's value
(source line 90): an optional sign followed by at least one decimal
digit, failing when the value overflows the i64 range; `none` is the
parse failure (invalid digit, empty, or overflow) that the source turns
into a panic via `unwrap`. -/
def parseI64 (s : String) : Option Int :=
  match s.data with
  | [] => none
  | c :: cs =>
      if c = '-' then
        match cs with
        | [] => none
        | _ :: _ => (parseNatDigits cs 0).bind (fitI64 true)
      else if c = '+' then
        match cs with
        | [] => none
        | _ :: _ => (parseNatDigits cs 0).bind (fitI64 false)
      else (parseNatDigits (c :: cs) 0).bind (fitI64 false)

/-- `AddUserToGroupComponent::submit_add_group` (source lines 113-127):
if no group is selected, return `Ok(false)` without any outbound call;
otherwise issue the add-user-to-group mutation with the stored username
and the selected group's id and return `Ok(true)`.  Note the source
performs no in-flight check here. -/
def submit_add_group (s : State) : HRes :=
  match s.selected_group with
  | none => .ok false s noEffects
  | some group =>
      let p := call_graphql s (.addUserToGroup s.username group.id)
      .ok true p.1 p.2

/-- `handle_msg` (source lines 67-97), one step of the component's message
handler.  `GroupListResponse`: `?` propagates an error, otherwise the
records are mapped into `Group`s, stored, and the task cancelled.
`SubmitAddGroup` delegates to `submit_add_group`.  `AddGroupResponse`:
`?` propagates an error; on success the task is cancelled, the selected
group is extracted with `expect` (panic when absent) and emitted on the
owner's callback.  `SelectionChanged`: the new selection is built
directly from the payload (value parsed with `unwrap`, text taken as
display name) and the returned redraw flag reports whether the presence
of a selection flipped. -/
def handle_msg (s : State) (msg : Msg) : HRes :=
  match msg with
  | .GroupListResponse response =>
      match response with
      | .error e => .err e s noEffects
      | .ok groups =>
          let s1 := { s with group_list := some (groups.map groupOfRecord) }
          let s2 := cancel_task s1
          .ok true s2 noEffects
  | .SubmitAddGroup => submit_add_group s
  | .AddGroupResponse response =>
      match response with
      | .error e => .err e s noEffects
      | .ok _ =>
          let s1 := cancel_task s
          match s1.selected_group with
          | none => .panic
          | some group => .ok true s1 { noEffects with added := [group] }
  | .SelectionChanged option_props =>
      let was_some := s.selected_group.isSome
      match option_props with
      | none =>
          let s1 := { s with selected_group := none }
          .ok (s1.selected_group.isSome != was_some) s1 noEffects
      | some props =>
          match parseI64 props.value with
          | none => .panic
          | some id =>
              let s1 := { s with selected_group := some { id := id, display_name := props.text } }
              .ok (s1.selected_group.isSome != was_some) s1 noEffects

/-- Modelled from the spec: the membership test of the `HashSet` of the
user's groups in `get_selectable_group_list` delegates to the `Group`
type's equality, which is declared in `user_details.rs` (not under
src/); the spec says groups are "compared by identity for set
membership" (spec section 3). -/
def group_in_assigned (assigned : List Group) (g : Group) : Bool :=
  assigned.any (fun ug => ug.id == g.id)

/-- `get_selectable_group_list` (source lines 129-136): filters the
catalog, keeping only the groups that are not among the user's current
groups (`self.common.groups`). -/
def get_selectable_group_list (s : State) (group_list : List Group) : List Group :=
  group_list.filter (fun g => !(group_in_assigned s.groups g))

/-- Modelled from the spec: `CommonComponentParts::update_and_report_error`
(infra/common_component.rs, not under src/), the wrapper through which
`update` (source lines 152-158) delivers every message: an `Err`
returned by `handle_msg` is propagated to the owner's error callback
and the InFlightFlag is cleared (spec sections 4.1 and 4.2); a panic
propagates (`none`). -/
def update_and_report_error (s : State) (msg : Msg) : Option (Bool × State × Effects) :=
  match handle_msg s msg with
  | .panic => none
  | .err e s1 eff => some (true, cancel_task s1, { eff with errors := eff.errors ++ [e] })
  | .ok b s1 eff => some (b, s1, eff)

/-- The rendered output, as far as the claims observe it (`view`, source
lines 164-201): while the catalog is absent only a loading indicator is
shown (and no selectable list is computed); otherwise the selectable
list is rendered as options and the submit button carries
`disabled = selected_group.is_none() || is_task_running()`
(source line 188). -/
inductive View where
  | loading
  | form (options : List Group) (submitDisabled : Bool)
deriving DecidableEq, Repr

/-- `view` (source lines 164-201). -/
def view (s : State) : View :=
  match s.group_list with
  | none => .loading
  | some gl => .form (get_selectable_group_list s gl) (s.selected_group.isNone || is_task_running s)

/-- Whether the rendered output permits triggering a submission. -/
def submitEnabled : View → Bool
  | .loading => false
  | .form _ disabled => !disabled

/-- `create` (source lines 142-150): the initial state (no catalog, no
selection) which immediately issues the list-groups request through
`get_group_list` (source lines 105-111). -/
def create (username : String) (groups : List Group) : State × Effects :=
  let s : State :=
    { username := username, groups := groups, group_list := none,
      selected_group := none, task := false }
  call_graphql s .getGroupList

/-- States reachable by the component's message-handling steps: the
freshly created component, and any state produced by delivering a
message through `update_and_report_error` (panics excluded — they abort). -/
inductive Reachable : State → Prop
  | init (username : String) (groups : List Group) :
      Reachable (create username groups).1
  | step {s : State} (msg : Msg) {b : Bool} {s1 : State} {eff : Effects} :
      Reachable s → update_and_report_error s msg = some (b, s1, eff) → Reachable s1

/-! Concrete states used to instantiate the theorems. -/

/-- The group {1, "Admins"} of the spec's scenarios. -/
def adminsGroup : Group := { id := 1, display_name := "Admins" }

/-- The group {3, "Guests"} of the spec's scenarios. -/
def guestsGroup : Group := { id := 3, display_name := "Guests" }

/-- A state with a selection recorded and a submission in flight. -/
def stInFlightAdmins : State :=
  { username := "user", groups := [], group_list := some [adminsGroup],
    selected_group := some adminsGroup, task := true }

/-- A state with the catalog loaded and empty, nothing selected, idle. -/
def stEmptyCatalog : State :=
  { username := "user", groups := [], group_list := some [],
    selected_group := none, task := false }

/-- The state reached from `stEmptyCatalog` by a selection-changed event
carrying the payload {"5", "X"}. -/
def stPhantomSelected : State :=
  { username := "user", groups := [], group_list := some [],
    selected_group := some { id := 5, display_name := "X" }, task := false }

/-- A state with {3, "Guests"} selected and a submission in flight
(spec Scenario B). -/
def stInFlightGuests : State :=
  { username := "user", groups := [], group_list := some [guestsGroup],
    selected_group := some guestsGroup, task := true }

/-- A state with no selection and a task in flight. -/
def stNoSelection : State :=
  { username := "user", groups := [], group_list := some [guestsGroup],
    selected_group := none, task := true }

/-- The state right after creation: catalog absent, fetch in flight. -/
def stLoading : State :=
  { username := "user", groups := [], group_list := none,
    selected_group := none, task := true }

/-- Helper: filtering by the negation of a predicate keeps exactly the
elements not counted by the predicate. -/
theorem length_filter_neg {α : Type} (p : α → Bool) (c : List α) :
    (c.filter (fun g => !(p g))).length = c.length - (c.filter p).length := by
  induction c with
  | nil => rfl
  | cons x xs ih =>
    have hle := List.length_filter_le p xs
    by_cases h : p x
    · simp [h, ih]
    · simp [h, ih]
      omega

/-- C1: for every catalog and assigned-groups sequence,
`get_selectable_group_list` returns a list that contains no group whose id
appears among the assigned groups, preserves the catalog's relative order
(it is a sublist of the catalog), and has length equal to the catalog's
length minus the number of catalog groups whose id appears among the
assigned groups. -/
theorem C1_deriveSelectableList (s : State) (c : List Group) :
    (∀ g ∈ get_selectable_group_list s c, ∀ a ∈ s.groups, a.id ≠ g.id)
    ∧ (get_selectable_group_list s c).Sublist c
    ∧ (get_selectable_group_list s c).length
        = c.length - (c.filter (fun g => group_in_assigned s.groups g)).length := by
  refine ⟨?_, List.filter_sublist c, ?_⟩
  · intro g hg a ha
    have hmem := List.mem_filter.mp hg
    have hno := hmem.2
    simp only [group_in_assigned, Bool.not_eq_true', List.any_eq_false, beq_iff_eq] at hno
    exact hno a ha
  · exact length_filter_neg (fun g => group_in_assigned s.groups g) c

/-- C2 counterexample: the claim fails at `stInFlightAdmins`.  The
InFlightFlag is true, yet delivering the submit message issues the add
mutation (the outbound request list of the step is non-empty): the
handler `submit_add_group` performs no in-flight check. -/
theorem C2_counterexample :
    is_task_running stInFlightAdmins = true
    ∧ update_and_report_error stInFlightAdmins Msg.SubmitAddGroup
        = some (true, stInFlightAdmins,
            { requests := [Request.addUserToGroup "user" 1], added := [], errors := [] }) := by
  exact ⟨rfl, rfl⟩

/-- C2 amended: while the InFlightFlag is true the submit affordance is
disabled in the rendered view, so the UI does not generate the submit
message; the message handler itself, however, performs no in-flight
check and does issue a second mutation if the submit message is
delivered while a request is in flight. -/
theorem C2_submit_disabled_in_flight (s : State) (h : is_task_running s = true) :
    submitEnabled (view s) = false := by
  unfold view
  cases hgl : s.group_list with
  | none => rfl
  | some gl => simp [submitEnabled, h]

/-- The amended C2 guard at a concrete in-flight state. -/
theorem C2_submit_disabled_witness :
    submitEnabled (view stInFlightAdmins) = false :=
  C2_submit_disabled_in_flight stInFlightAdmins rfl

/-- C3 counterexample: the claim fails at `stEmptyCatalog`.  The
selectable list is empty, so the id 5 of the payload {"5", "X"} appears
nowhere in it, yet the selection-changed handler neither looks the id up
nor fails: it succeeds and sets Selection to the group constructed
directly from the payload's value and text. -/
theorem C3_counterexample :
    get_selectable_group_list stEmptyCatalog [] = []
    ∧ update_and_report_error stEmptyCatalog
        (Msg.SelectionChanged (some { value := "5", text := "X" }))
      = some (true, stPhantomSelected, noEffects) := by
  exact ⟨rfl, rfl⟩

/-- C3 amended: on a selection-changed event with a concrete payload, the
handler sets Selection to the group built directly from the payload —
the value string parsed as an i64 id and the text taken as display
name — performing no lookup in SelectableList; it panics (fails loudly)
exactly when the value string does not parse as an in-range i64
(invalid digits, or overflow of the i64 range). -/
theorem C3_select_from_payload (s : State) (p : SelectOptionProps) :
    (∀ n, parseI64 p.value = some n →
        handle_msg s (Msg.SelectionChanged (some p))
          = HRes.ok (true != s.selected_group.isSome)
              { s with selected_group := some { id := n, display_name := p.text } }
              noEffects)
    ∧ (parseI64 p.value = none →
        handle_msg s (Msg.SelectionChanged (some p)) = HRes.panic) := by
  constructor
  · intro n hn
    simp [handle_msg, hn]
  · intro hn
    simp [handle_msg, hn]

/-- The amended C3 behaviour at concrete payloads: {"5", "X"} parses and
is installed blindly; {"abc", "X"} fails to parse and panics; the
over-i64 digit string "9223372036854775808" (i64 max plus one) also
fails to parse and panics. -/
theorem C3_select_from_payload_witness :
    (handle_msg stEmptyCatalog (Msg.SelectionChanged (some { value := "5", text := "X" }))
       = HRes.ok (true != stEmptyCatalog.selected_group.isSome)
           { stEmptyCatalog with selected_group := some { id := 5, display_name := "X" } }
           noEffects)
    ∧ (handle_msg stEmptyCatalog (Msg.SelectionChanged (some { value := "abc", text := "X" }))
       = HRes.panic)
    ∧ (handle_msg stEmptyCatalog
         (Msg.SelectionChanged (some { value := "9223372036854775808", text := "X" }))
       = HRes.panic) :=
  ⟨(C3_select_from_payload stEmptyCatalog { value := "5", text := "X" }).1 5 (by decide),
   (C3_select_from_payload stEmptyCatalog { value := "abc", text := "X" }).2 (by decide),
   (C3_select_from_payload stEmptyCatalog
      { value := "9223372036854775808", text := "X" }).2 (by decide)⟩

/-- C4 counterexample: the claim fails at `stPhantomSelected`, a state
reachable by the component's message-handling steps (create, then an
empty catalog response, then the selection-changed payload {"5", "X"}).
In it the UI permits interaction (the form is rendered and the submit
button is enabled), Selection is present, yet the selected group is not
a member of SelectableList, which is empty. -/
theorem C4_counterexample :
    Reachable stPhantomSelected
    ∧ stPhantomSelected.selected_group = some { id := 5, display_name := "X" }
    ∧ view stPhantomSelected = View.form [] false
    ∧ ({ id := 5, display_name := "X" } : Group)
        ∉ get_selectable_group_list stPhantomSelected [] := by
  refine ⟨?_, rfl, rfl, by decide⟩
  have h0 : Reachable (create "user" []).1 := Reachable.init "user" []
  have h1 : Reachable stEmptyCatalog :=
    Reachable.step (Msg.GroupListResponse (Except.ok [])) h0 rfl
  exact Reachable.step (Msg.SelectionChanged (some { value := "5", text := "X" })) h1 rfl

/-- C4 amended: the component does not re-validate Selection against
SelectableList (see the C4 counterexample); the invariant the rendered
view does enforce is that interaction with the submit affordance is
only permitted when a Selection is present and no task is in flight. -/
theorem C4_interaction_guard (s : State) (h : submitEnabled (view s) = true) :
    s.selected_group.isSome = true ∧ is_task_running s = false := by
  unfold view at h
  cases hgl : s.group_list with
  | none => rw [hgl] at h; exact absurd h (by simp [submitEnabled])
  | some gl =>
    rw [hgl] at h
    simp only [submitEnabled, Bool.not_eq_true', Bool.or_eq_false_iff,
      Option.isNone_eq_false_iff] at h
    exact ⟨h.1, h.2⟩

/-- The amended C4 guard at a concrete interactive state. -/
theorem C4_interaction_guard_witness :
    stPhantomSelected.selected_group.isSome = true
    ∧ is_task_running stPhantomSelected = false :=
  C4_interaction_guard stPhantomSelected rfl

/-- C5: with a Selection present and a submission in flight, an error
response to the add mutation propagates the error to the owner's error
callback, clears the InFlightFlag, and leaves Selection unchanged. -/
theorem C5_submit_failure (s : State) (g : Group) (e : Err)
    (hsel : s.selected_group = some g) (_hin : is_task_running s = true) :
    update_and_report_error s (Msg.AddGroupResponse (Except.error e))
      = some (true, cancel_task s, { requests := [], added := [], errors := [e] })
    ∧ (cancel_task s).selected_group = some g
    ∧ is_task_running (cancel_task s) = false := by
  exact ⟨rfl, by simpa [cancel_task] using hsel, rfl⟩

/-- The C5 transition at spec Scenario C: {1, "Admins"} selected, the
mutation fails with "permission denied". -/
theorem C5_submit_failure_witness :
    update_and_report_error stInFlightAdmins
        (Msg.AddGroupResponse (Except.error "permission denied"))
      = some (true, cancel_task stInFlightAdmins,
          { requests := [], added := [], errors := ["permission denied"] })
    ∧ (cancel_task stInFlightAdmins).selected_group = some adminsGroup
    ∧ is_task_running (cancel_task stInFlightAdmins) = false :=
  C5_submit_failure stInFlightAdmins adminsGroup "permission denied" rfl rfl

/-- C6: with a Selection present and a submission in flight, a success
response to the add mutation clears the InFlightFlag and emits the
owner's group-added callback with exactly the group recorded in
Selection. -/
theorem C6_submit_success (s : State) (g : Group)
    (hsel : s.selected_group = some g) (_hin : is_task_running s = true) :
    update_and_report_error s (Msg.AddGroupResponse (Except.ok ()))
      = some (true, cancel_task s, { requests := [], added := [g], errors := [] })
    ∧ is_task_running (cancel_task s) = false := by
  refine ⟨?_, rfl⟩
  simp [update_and_report_error, handle_msg, cancel_task, hsel, noEffects]

/-- The C6 transition at spec Scenario B: {3, "Guests"} selected, the
mutation succeeds. -/
theorem C6_submit_success_witness :
    update_and_report_error stInFlightGuests (Msg.AddGroupResponse (Except.ok ()))
      = some (true, cancel_task stInFlightGuests,
          { requests := [], added := [guestsGroup], errors := [] })
    ∧ is_task_running (cancel_task stInFlightGuests) = false :=
  C6_submit_success stInFlightGuests guestsGroup rfl rfl

/-- C7: a success response to the add mutation in a state with no
Selection recorded makes the handler panic (`expect` on the absent
selected group): the contract violation aborts instead of being
silently ignored. -/
theorem C7_success_without_selection (s : State) (hsel : s.selected_group = none) :
    update_and_report_error s (Msg.AddGroupResponse (Except.ok ())) = none := by
  simp [update_and_report_error, handle_msg, cancel_task, hsel]

/-- The C7 panic at a concrete no-selection state. -/
theorem C7_success_without_selection_witness :
    update_and_report_error stNoSelection (Msg.AddGroupResponse (Except.ok ())) = none :=
  C7_success_without_selection stNoSelection rfl

/-- C8: delivering the submit message with Selection absent issues no
outbound call, leaves the state unchanged, reports no error, and
returns false ("no redraw needed"). -/
theorem C8_submit_noop (s : State) (hsel : s.selected_group = none) :
    handle_msg s Msg.SubmitAddGroup = HRes.ok false s noEffects
    ∧ update_and_report_error s Msg.SubmitAddGroup = some (false, s, noEffects) := by
  constructor
  · simp [handle_msg, submit_add_group, hsel]
  · simp [update_and_report_error, handle_msg, submit_add_group, hsel]

/-- The C8 no-op at a concrete state with no selection. -/
theorem C8_submit_noop_witness :
    handle_msg stEmptyCatalog Msg.SubmitAddGroup = HRes.ok false stEmptyCatalog noEffects
    ∧ update_and_report_error stEmptyCatalog Msg.SubmitAddGroup
        = some (false, stEmptyCatalog, noEffects) :=
  C8_submit_noop stEmptyCatalog rfl

/-- C9: an error response to the initial list-groups fetch propagates the
error to the owner's error callback, leaves the Catalog absent, and the
component still renders the loading indicator (under which no selectable
list is computed). -/
theorem C9_fetch_failure (s : State) (e : Err) (hgl : s.group_list = none) :
    update_and_report_error s (Msg.GroupListResponse (Except.error e))
      = some (true, cancel_task s, { requests := [], added := [], errors := [e] })
    ∧ (cancel_task s).group_list = none
    ∧ view (cancel_task s) = View.loading := by
  refine ⟨rfl, by simpa [cancel_task] using hgl, ?_⟩
  simp [view, cancel_task, hgl]

/-- The C9 outcome at the freshly created state, spec Scenario D. -/
theorem C9_fetch_failure_witness :
    update_and_report_error stLoading (Msg.GroupListResponse (Except.error "network error"))
      = some (true, cancel_task stLoading,
          { requests := [], added := [], errors := ["network error"] })
    ∧ (cancel_task stLoading).group_list = none
    ∧ view (cancel_task stLoading) = View.loading :=
  C9_fetch_failure stLoading "network error" rfl

/-- C10: the selection-changed handler returns true exactly when the
presence of Selection flipped — for a parsing payload the result is
(true != before), for the clearing event it is (false != before) — and
delivering the same payload twice leaves Selection unchanged with the
second call returning false. -/
theorem C10_select_redraw (s : State) (p : SelectOptionProps) (n : Int)
    (hp : parseI64 p.value = some n) :
    (handle_msg s (Msg.SelectionChanged (some p))
       = HRes.ok (true != s.selected_group.isSome)
           { s with selected_group := some { id := n, display_name := p.text } }
           noEffects)
    ∧ (handle_msg s (Msg.SelectionChanged none)
       = HRes.ok (false != s.selected_group.isSome)
           { s with selected_group := none } noEffects)
    ∧ (handle_msg { s with selected_group := some { id := n, display_name := p.text } }
         (Msg.SelectionChanged (some p))
       = HRes.ok false
           { s with selected_group := some { id := n, display_name := p.text } }
           noEffects) := by
  refine ⟨?_, ?_, ?_⟩ <;> simp [handle_msg, hp]

/-- The C10 behaviour at the concrete payload {"3", "Guests"} from a
state with nothing selected. -/
theorem C10_select_redraw_witness :
    (handle_msg stEmptyCatalog (Msg.SelectionChanged (some { value := "3", text := "Guests" }))
       = HRes.ok (true != stEmptyCatalog.selected_group.isSome)
           { stEmptyCatalog with selected_group := some { id := 3, display_name := "Guests" } }
           noEffects)
    ∧ (handle_msg stEmptyCatalog (Msg.SelectionChanged none)
       = HRes.ok (false != stEmptyCatalog.selected_group.isSome)
           { stEmptyCatalog with selected_group := none } noEffects)
    ∧ (handle_msg
         { stEmptyCatalog with selected_group := some { id := 3, display_name := "Guests" } }
         (Msg.SelectionChanged (some { value := "3", text := "Guests" }))
       = HRes.ok false
           { stEmptyCatalog with selected_group := some { id := 3, display_name := "Guests" } }
           noEffects) :=
  C10_select_redraw stEmptyCatalog { value := "3", text := "Guests" } 3 (by decide)

end LldapApp
